import Mathlib

/-!
Shallow embedding of `src/socks5.rs` (a SOCKS5 proxy) and verification of the
frozen claims about it.

Modelling conventions:
* bytes are `Nat` (values are below 256 where the source guarantees it);
* Rust `&buf[a..b]` slicing, which panics when out of range, is modelled by
  `slice?` returning `none` on the panicking inputs; likewise array indexing
  is modelled with `List.get?` (`none` = impossible / panic);
* a function that can panic in the source returns `Option` here, `none`
  standing for the panic;
* socket writes are modelled by returning the list of bytes written.
-/

set_option maxRecDepth 4000

namespace Socks5

/-- Embeds `enum AuthMethods` (socks5.rs lines 19-26). -/
inductive AuthMethods
  | NoAuth
  | GsSAPI
  | UsernamePassword
  | IANAAssigned
  | Reserved
  | NotAcceptable
deriving DecidableEq, BEq

/-- Embeds `AuthMethods::to_u8` (socks5.rs lines 54-63). -/
def AuthMethods.to_u8 : AuthMethods → Nat
  | AuthMethods.NoAuth => 0
  | AuthMethods.GsSAPI => 1
  | AuthMethods.UsernamePassword => 2
  | AuthMethods.IANAAssigned => 3
  | AuthMethods.Reserved => 4
  | AuthMethods.NotAcceptable => 0xff

/-- Embeds `struct Proxy` (socks5.rs lines 66-69): the `Mutex<HashMap>` of users
is modelled as an association list with unique keys. -/
structure Proxy where
  auth_methods : List AuthMethods
  users : List (String × String)
deriving DecidableEq

/-- Embeds `Proxy::get_user` (socks5.rs lines 88-90). -/
def Proxy.get_user (p : Proxy) (username : String) : Option String :=
  (p.users.find? (fun kv => kv.1 == username)).map (fun kv => kv.2)

/-- Embeds `Proxy::check_valid_auth_method` (socks5.rs lines 92-97). -/
def Proxy.check_valid_auth_method (p : Proxy) (auth_method : AuthMethods) : Bool :=
  p.auth_methods.contains auth_method

/-- Embeds `check_valid_version` (socks5.rs lines 124-127). -/
def check_valid_version (version : Nat) : Bool :=
  0x05 == version

/-- Rust range slicing `&buf[a..b]`: `none` models the panic when the range is
invalid or out of bounds. -/
def slice? (l : List Nat) (a b : Nat) : Option (List Nat) :=
  if a ≤ b ∧ b ≤ l.length then some ((l.drop a).take (b - a)) else none

/-- Outcome of the negotiation phase: bytes written to the client, the method
the handler classified the client into (mirroring the three branches and the
bad-version early return), and whether the handler proceeds to the
username/password sub-negotiation. `proceed = false` means the handler
returns, dropping (closing) the connection. -/
structure NegoOutcome where
  sent : List Nat
  selected : Option AuthMethods
  proceed : Bool
deriving DecidableEq

/-- Embeds the negotiation phase of `handle_connection` (socks5.rs lines
153-303). `buf` is the zero-initialised 258-byte read buffer after the first
`socket.read`. The source: checks `buf[0]` is version 5 (else returns with no
reply); takes `nmethod = buf[1]` and slices `&buf[2..2+nmethod]`; if that
slice contains method 2 and the proxy has `UsernamePassword` enabled it
writes `[5, 2]` and goes on to read the credentials; else if the slice
contains method 0 it just returns (`println!("NoAuth")`, no reply, no
`make_proxy` call); else it just returns (`println!("NotAcceptable")`, no
0xFF reply). -/
def handleNegotiation (proxy : Proxy) (buf : List Nat) : Option NegoOutcome :=
  (buf.get? 0).bind (fun v =>
    if check_valid_version v = false then
      some ⟨[], none, false⟩
    else
      (buf.get? 1).bind (fun nmethod =>
        (slice? buf 2 (2 + nmethod)).bind (fun methods =>
          if methods.contains AuthMethods.UsernamePassword.to_u8 &&
              proxy.check_valid_auth_method AuthMethods.UsernamePassword then
            some ⟨[5, AuthMethods.UsernamePassword.to_u8],
                  some AuthMethods.UsernamePassword, true⟩
          else if methods.contains AuthMethods.NoAuth.to_u8 then
            some ⟨[], some AuthMethods.NoAuth, false⟩
          else
            some ⟨[], some AuthMethods.NotAcceptable, false⟩)))

/-- Embeds the byte-level field extraction of the username/password
sub-negotiation (socks5.rs lines 202-211): `username_length = buf[1]`,
`password_length = buf[2 + username_length]`,
`username = &buf[2..2+username_length]`,
`password = &buf[3+username_length..3+username_length+password_length]`.
`buf` is the zero-initialised 258-byte read buffer; `none` models a
panicking slice. (In the source the two fields are then decoded with
`String::from_utf8(..).unwrap()`, which additionally panics on invalid
UTF-8.) -/
def decodeAuthFields (buf : List Nat) : Option (List Nat × List Nat) :=
  (buf.get? 1).bind (fun username_length =>
    (buf.get? (2 + username_length)).bind (fun password_length =>
      (slice? buf 2 (2 + username_length)).bind (fun username =>
        (slice? buf (3 + username_length)
            (3 + username_length + password_length)).map (fun password =>
          (username, password)))))

/-- Outcome of the credential check: bytes written to the client and whether
the handler proceeds to `make_proxy` (request parsing). -/
structure AuthOutcome where
  sent : List Nat
  proceed : Bool
deriving DecidableEq

/-- Embeds the credential-check branch of `handle_connection` (socks5.rs lines
223-291): looks the username up with `get_user`; `Some` with equal password
writes `[1, 0]` and calls `make_proxy`; `Some` with different password writes
`[1, 1]` and returns; `None` writes `[1, 1]` and returns. -/
def authenticate (proxy : Proxy) (username password : String) : AuthOutcome :=
  match proxy.get_user username with
  | some p => if p == password then ⟨[1, 0], true⟩ else ⟨[1, 1], false⟩
  | none => ⟨[1, 1], false⟩

/-- Outcome of `make_proxy`: bytes written to the client, whether
`TcpStream::connect` was attempted, and whether the bidirectional relay was
started. -/
structure MakeProxyOut where
  sent : List Nat
  connectAttempted : Bool
  relayStarted : Bool
deriving DecidableEq

/-- Embeds the request-parsing part of `make_proxy` (socks5.rs lines 320-341):
`r0..r3` are the 4 header bytes read first (`r1`, the command byte, is bound
to `method` in the source but never examined; `r2` is the reserved byte),
`a0..a3, p0, p1` are the 6 bytes of the second read. Version must be 5 and
`address_type` (`r3`) must be 1 (IPv4); any other address type falls off the
`if` with no reply and the connection is dropped (`none`). On success the
6 address/port bytes are returned. -/
def parseRequest (r0 r1 r2 r3 a0 a1 a2 a3 p0 p1 : Nat) : Option (List Nat) :=
  if check_valid_version r0 = false then none
  else if r3 = 1 then some [a0, a1, a2, a3, p0, p1]
  else none

/-- Embeds `make_proxy` (socks5.rs lines 319-417) given whether the
`TcpStream::connect` to the requested address succeeds. On parse failure the
function returns with nothing sent and no connect attempt. On connect
success it writes `[5, 0, 0, 1]` followed by the requested address and port
bytes and starts the relay. On connect failure the source calls
`.unwrap()` on the `Err`, i.e. the task panics: modelled as `none` (no reply
bytes are ever written). -/
def make_proxy (r0 r1 r2 r3 a0 a1 a2 a3 p0 p1 : Nat) (connectOk : Bool) :
    Option MakeProxyOut :=
  match parseRequest r0 r1 r2 r3 a0 a1 a2 a3 p0 p1 with
  | none => some ⟨[], false, false⟩
  | some addr =>
    if connectOk then some ⟨[5, 0, 0, 1] ++ addr, true, true⟩
    else none

/-- One event of a relay copy loop: a successful read delivering `data`
(empty = clean EOF) whose subsequent `write_all` succeeds iff `writeOk`, or a
read error. -/
inductive RelayEvent
  | chunk (data : List Nat) (writeOk : Bool)
  | readErr
deriving DecidableEq

/-- Embeds `bidirectional_streaming` (socks5.rs lines 100-116) as a trace
semantics: given the sequence of read results of the source socket, returns
the bytes delivered to the destination socket. An `Ok(0)` read (empty chunk)
breaks the loop; a failed `write_all` breaks the loop; a read error breaks
the loop. -/
def bidirectional_streaming : List RelayEvent → List Nat
  | [] => []
  | RelayEvent.readErr :: _ => []
  | RelayEvent.chunk [] _ :: _ => []
  | RelayEvent.chunk (b :: d) true :: rest =>
      (b :: d) ++ bidirectional_streaming rest
  | RelayEvent.chunk (_ :: _) false :: _ => []

/-- Modelled from the spec (section 4.1), for comparison with the source: the
method-selection rule the spec states — UsernamePassword if it is in the
intersection of offered and enabled, else NoAuth if it is in the
intersection, else NotAcceptable (0xFF). -/
def specSelectMethod (offered : List Nat) (enabled : List AuthMethods) : Nat :=
  if offered.contains AuthMethods.UsernamePassword.to_u8 &&
      enabled.contains AuthMethods.UsernamePassword then
    AuthMethods.UsernamePassword.to_u8
  else if offered.contains AuthMethods.NoAuth.to_u8 &&
      enabled.contains AuthMethods.NoAuth then
    AuthMethods.NoAuth.to_u8
  else 0xff

/-! ## Theorems -/

/-- Claim C2 (code bug): on an IPv4 CONNECT whose upstream connect fails, the
source calls `.unwrap()` on the `Err` and the task panics (modelled `none`):
no reply bytes `{5, REP, 0, 1, 0.0.0.0, 0}` are ever written, contradicting
the claimed error reply. Input: request header `[5,1,0,1]`, address
93.184.216.34:80, failing connect. -/
theorem connect_failure_panics_no_reply :
    make_proxy 5 1 0 1 93 184 216 34 0 80 false = none := by decide

/-- Claim C7 (code bug): the command byte is read but never examined, so a
request with command 2 (BIND) and ATYP=1 still opens the upstream connection
and receives the success reply REP=0, contradicting "never opens an upstream
connection" for non-CONNECT commands. -/
theorem unsupported_command_still_connects :
    make_proxy 5 2 0 1 93 184 216 34 0 80 true =
      some ⟨[5, 0, 0, 1, 93, 184, 216, 34, 0, 80], true, true⟩ := by decide

/-- Claim C8 (confirmed): on an IPv4 CONNECT whose upstream connect succeeds,
the source writes exactly the 10 bytes `[5, 0, 0, 1]` followed by the
originally requested 4 address bytes and 2 big-endian port bytes. -/
theorem connect_success_reply (a0 a1 a2 a3 p0 p1 : Nat) :
    make_proxy 5 1 0 1 a0 a1 a2 a3 p0 p1 true =
      some ⟨[5, 0, 0, 1, a0, a1, a2, a3, p0, p1], true, true⟩ ∧
    ([5, 0, 0, 1, a0, a1, a2, a3, p0, p1] : List Nat).length = 10 :=
  ⟨rfl, rfl⟩

/-- Claim C4 (code bug): an auth message declaring username length 200 and
password length 200 (both at most 255) makes the password slice
`&buf[203..403]` overrun the 258-byte read buffer, so the source task panics
(modelled `none`) instead of failing the connection gracefully. The buffer
below is the full 258-byte read buffer for that message. -/
theorem auth_decode_out_of_bounds :
    ((1 : Nat) :: 200 :: (List.replicate 200 97 ++ 200 :: List.replicate 55 97)).length
        = 258 ∧
    decodeAuthFields
        ((1 : Nat) :: 200 :: (List.replicate 200 97 ++ 200 :: List.replicate 55 97))
        = none := by decide

/-- Claim C1 counterexample: server enables only UsernamePassword, client
offers only NoAuth (message `[5, 1, 0]`, zero-filled 258-byte buffer). The
claim's selection rule picks NotAcceptable, demanding the 2-byte reply
`[5, 0xFF]`; the source's NoAuth branch writes nothing at all. -/
theorem negotiation_reply_cx :
    specSelectMethod [0] [AuthMethods.UsernamePassword] = 0xff ∧
    (handleNegotiation ⟨[AuthMethods.UsernamePassword], []⟩
        (5 :: 1 :: 0 :: List.replicate 255 0)).map NegoOutcome.sent = some [] ∧
    ¬ ((handleNegotiation ⟨[AuthMethods.UsernamePassword], []⟩
        (5 :: 1 :: 0 :: List.replicate 255 0)).map NegoOutcome.sent =
      some [5, specSelectMethod [0] [AuthMethods.UsernamePassword]]) := by decide

/-- Claim C9 counterexample: a truncated negotiation message declaring 5
methods of which only one byte (method 2) arrived, with UsernamePassword
enabled server-side. The handler does not close the connection: it replies
`[5, 2]` and proceeds to the credential read (`proceed = some true`, where
`some false` models the handler returning and the connection closing). -/
theorem truncated_negotiation_cx :
    (handleNegotiation ⟨[AuthMethods.UsernamePassword], []⟩
        (5 :: 5 :: 2 :: List.replicate 255 0)).map NegoOutcome.proceed = some true ∧
    ¬ ((handleNegotiation ⟨[AuthMethods.UsernamePassword], []⟩
        (5 :: 5 :: 2 :: List.replicate 255 0)).map NegoOutcome.proceed =
      some false) := by decide

/-- Claim C3 (confirmed): against any credential store, an absent username
yields the reply `[1, 1]` and the connection closes; a present username with
a different password yields `[1, 1]` and the connection closes; a matching
username and password yield `[1, 0]` and the handler proceeds to request
parsing. -/
theorem authenticate_cases (proxy : Proxy) (u p : String) :
    (proxy.get_user u = none → authenticate proxy u p = ⟨[1, 1], false⟩) ∧
    (∀ pw, proxy.get_user u = some pw → pw ≠ p →
      authenticate proxy u p = ⟨[1, 1], false⟩) ∧
    (∀ pw, proxy.get_user u = some pw → pw = p →
      authenticate proxy u p = ⟨[1, 0], true⟩) := by
  refine ⟨fun h => ?_, fun pw h hne => ?_, fun pw h he => ?_⟩
  · simp [authenticate, h]
  · simp [authenticate, h, hne]
  · simp [authenticate, h, he]

/-- Witness for C3 at the store `{"alice": "secret"}`. -/
theorem authenticate_cases_witness :
    authenticate ⟨[AuthMethods.UsernamePassword], [("alice", "secret")]⟩
      "bob" "anything" = ⟨[1, 1], false⟩ ∧
    authenticate ⟨[AuthMethods.UsernamePassword], [("alice", "secret")]⟩
      "alice" "wrong" = ⟨[1, 1], false⟩ ∧
    authenticate ⟨[AuthMethods.UsernamePassword], [("alice", "secret")]⟩
      "alice" "secret" = ⟨[1, 0], true⟩ :=
  ⟨(authenticate_cases _ "bob" "anything").1 (by decide),
   (authenticate_cases _ "alice" "wrong").2.1 "secret" (by decide) (by decide),
   (authenticate_cases _ "alice" "secret").2.2 "secret" (by decide) rfl⟩

/-- Claim C5 (confirmed): each relay direction writes exactly the bytes it
read, unaltered and in order, across any number of reads (so also for
payloads larger than the 1024-byte buffer); it stops without error at a
0-byte read, ignoring any later events, and stops on a read error or a
write error. The hypothesis states that every successful non-final read
into the 1024-byte buffer returns between 1 and 1024 bytes. -/
theorem relay_streams_bytes (chunks : List (List Nat)) (rest : List RelayEvent)
    (h : ∀ c ∈ chunks, c ≠ [] ∧ c.length ≤ 1024) :
    bidirectional_streaming
        (chunks.map (fun c => RelayEvent.chunk c true) ++
          RelayEvent.chunk [] true :: rest) = chunks.flatten ∧
    bidirectional_streaming (RelayEvent.readErr :: rest) = [] ∧
    (∀ d, bidirectional_streaming (RelayEvent.chunk d false :: rest) = []) := by
  refine ⟨?_, rfl, fun d => ?_⟩
  · induction chunks with
    | nil => rfl
    | cons c cs ih =>
      obtain ⟨hne, -⟩ := h c (List.mem_cons_self _ _)
      match c, hne with
      | b :: t, _ =>
        have ih2 := ih (fun c hc => h c (List.mem_cons_of_mem _ hc))
        simp [bidirectional_streaming, ih2]
  · match d with
    | [] => rfl
    | b :: t => rfl

/-- Witness for C5: two chunks relayed in order, then a clean EOF; a later
event is ignored; a read error and a failed write produce nothing. -/
theorem relay_streams_bytes_witness :
    bidirectional_streaming
        (RelayEvent.chunk [1, 2, 3] true :: RelayEvent.chunk [4, 5] true ::
          RelayEvent.chunk [] true :: RelayEvent.chunk [9] true :: []) =
      [1, 2, 3, 4, 5] ∧
    bidirectional_streaming
        (RelayEvent.readErr :: RelayEvent.chunk [9] true :: []) = [] ∧
    bidirectional_streaming
        (RelayEvent.chunk [7] false :: RelayEvent.chunk [9] true :: []) = [] := by
  have h := relay_streams_bytes [[1, 2, 3], [4, 5]] [RelayEvent.chunk [9] true]
    (by decide)
  exact ⟨h.1, h.2.1, h.2.2 [7]⟩

/-- Helper: on the zero-initialised 258-byte buffer, a version-5 negotiation
message never overruns the slice, and the outcome is decided by the
zero-filled method list `(buf.drop 2).take n`. -/
theorem handleNegotiation_eval (proxy : Proxy) (buf : List Nat)
    (hlen : buf.length = 258) (hv : buf.get? 0 = some 5)
    (n : Nat) (hn : buf.get? 1 = some n) (hnb : n ≤ 255) :
    handleNegotiation proxy buf = some (
      if ((buf.drop 2).take n).contains 2 &&
          proxy.auth_methods.contains AuthMethods.UsernamePassword then
        ⟨[5, 2], some AuthMethods.UsernamePassword, true⟩
      else if ((buf.drop 2).take n).contains 0 then
        ⟨[], some AuthMethods.NoAuth, false⟩
      else
        ⟨[], some AuthMethods.NotAcceptable, false⟩) := by
  have h2n : 2 + n - 2 = n := by omega
  have hslice : slice? buf 2 (2 + n) = some ((buf.drop 2).take n) := by
    unfold slice?
    rw [if_pos ⟨by omega, by omega⟩, h2n]
  simp only [handleNegotiation, hv, hn, hslice, Option.some_bind,
    check_valid_version, AuthMethods.to_u8, Proxy.check_valid_auth_method]
  rw [if_neg (by decide : ¬ ((5 == 5) = false))]
  by_cases h1 : ((List.take n (List.drop 2 buf)).contains 2 &&
      proxy.auth_methods.contains AuthMethods.UsernamePassword) = true
  · rw [if_pos h1, if_pos h1]
  · rw [if_neg h1, if_neg h1]
    by_cases h2 : (List.take n (List.drop 2 buf)).contains 0 = true
    · rw [if_pos h2, if_pos h2]
    · rw [if_neg h2, if_neg h2]

/-- Claim C1 (amended): for a version-5 negotiation message the server writes
the 2-byte reply `[5, 2]` and proceeds exactly when method 2 is among the
offered method bytes and UsernamePassword is server-enabled; in every other
case it writes no reply bytes at all before dropping the connection — in
particular NoAuth is classified without consulting the server's enabled set
but never confirmed with a reply, and 0xFF is never sent. -/
theorem negotiation_amended (proxy : Proxy) (buf : List Nat)
    (hlen : buf.length = 258) (hv : buf.get? 0 = some 5)
    (n : Nat) (hn : buf.get? 1 = some n) (hnb : n ≤ 255) :
    ((handleNegotiation proxy buf).map NegoOutcome.sent = some [5, 2] ∨
     (handleNegotiation proxy buf).map NegoOutcome.sent = some []) ∧
    ((handleNegotiation proxy buf).map NegoOutcome.sent = some [5, 2] ↔
      (((buf.drop 2).take n).contains 2 &&
        proxy.auth_methods.contains AuthMethods.UsernamePassword) = true) ∧
    (handleNegotiation proxy buf).map NegoOutcome.proceed =
      some (((buf.drop 2).take n).contains 2 &&
        proxy.auth_methods.contains AuthMethods.UsernamePassword) := by
  rw [handleNegotiation_eval proxy buf hlen hv n hn hnb]
  by_cases h1 : (((buf.drop 2).take n).contains 2 &&
      proxy.auth_methods.contains AuthMethods.UsernamePassword) = true
  · rw [if_pos h1]
    simp
    simpa using h1
  · rw [if_neg h1]
    by_cases h2 : ((buf.drop 2).take n).contains 0 = true
    · rw [if_pos h2]
      simp
      simpa using h1
    · rw [if_neg h2]
      simp
      simpa using h1

/-- Witness for the amended C1: server enables UsernamePassword, client
offers exactly method 2; the reply is `[5, 2]` and the handler proceeds. -/
theorem negotiation_amended_witness :
    (handleNegotiation ⟨[AuthMethods.UsernamePassword], []⟩
        (5 :: 1 :: 2 :: List.replicate 255 0)).map NegoOutcome.sent = some [5, 2] ∧
    (handleNegotiation ⟨[AuthMethods.UsernamePassword], []⟩
        (5 :: 1 :: 2 :: List.replicate 255 0)).map NegoOutcome.proceed = some true := by
  have h := negotiation_amended ⟨[AuthMethods.UsernamePassword], []⟩
    (5 :: 1 :: 2 :: List.replicate 255 0) (by decide) (by decide) 1 (by decide)
    (by decide)
  exact ⟨h.2.1.mpr (by decide), h.2.2.trans (by decide)⟩

/-- Claim C9 (amended): a truncated negotiation message never panics — for
every declared method count up to 255 the slice `&buf[2..2+n]` stays inside
the zero-filled 258-byte buffer — and the connection is closed unless the
received prefix of the method list already selects UsernamePassword (a
method byte 2 arrived and UsernamePassword is server-enabled), in which
case the handler proceeds as for a complete message instead of closing. -/
theorem truncated_negotiation_amended (proxy : Proxy) (buf : List Nat)
    (hlen : buf.length = 258) (hv : buf.get? 0 = some 5)
    (n : Nat) (hn : buf.get? 1 = some n) (hnb : n ≤ 255) :
    handleNegotiation proxy buf ≠ none ∧
    ((handleNegotiation proxy buf).map NegoOutcome.proceed = some false ∨
      (((buf.drop 2).take n).contains 2 &&
        proxy.auth_methods.contains AuthMethods.UsernamePassword) = true) := by
  rw [handleNegotiation_eval proxy buf hlen hv n hn hnb]
  by_cases h1 : (((buf.drop 2).take n).contains 2 &&
      proxy.auth_methods.contains AuthMethods.UsernamePassword) = true
  · rw [if_pos h1]
    simp
    simpa using h1
  · rw [if_neg h1]
    by_cases h2 : ((buf.drop 2).take n).contains 0 = true
    · rw [if_pos h2]
      simp
    · rw [if_neg h2]
      simp

/-- Witness for the amended C9: the spec's example — a message declaring 5
methods of which none arrived (zero-filled tail): no panic, and the
connection is closed. -/
theorem truncated_negotiation_amended_witness :
    handleNegotiation ⟨[AuthMethods.UsernamePassword], []⟩
      (5 :: 5 :: List.replicate 256 0) ≠ none ∧
    (handleNegotiation ⟨[AuthMethods.UsernamePassword], []⟩
      (5 :: 5 :: List.replicate 256 0)).map NegoOutcome.proceed = some false := by
  have h := truncated_negotiation_amended ⟨[AuthMethods.UsernamePassword], []⟩
    (5 :: 5 :: List.replicate 256 0) (by decide) (by decide) 5 (by decide)
    (by decide)
  exact ⟨h.1, h.2.resolve_right (by decide)⟩

/-! ## Connection pipeline state machine (for the Session invariant) -/

/-- Pipeline stages of one connection task. -/
inductive Stage
  | nego
  | auth
  | request
  | connecting
  | relay
  | closed
deriving DecidableEq

/-- Abstract per-connection state (the spec's Session): pipeline stage, the
method the negotiation phase classified the client into, whether the
credential check succeeded, whether the CONNECT request has been fully
parsed, and whether an upstream socket exists. -/
structure ConnState where
  stage : Stage
  negotiated : Option AuthMethods
  authSucceeded : Bool
  requestParsed : Bool
  upstream : Bool
deriving DecidableEq

/-- State of a connection right after `accept`. -/
def initState : ConnState :=
  ⟨Stage.nego, none, false, false, false⟩

/-- One step of the connection pipeline, mirroring the control flow of
`handle_connection` and `make_proxy`: the negotiation phase proceeds to the
credential exchange only through the UsernamePassword branch; the credential
check proceeds to `make_proxy` only on success; `TcpStream::connect` is
reached only after the 4 header bytes and the 6 address bytes have been
parsed (`parseRequest` succeeded); the relay starts only after a successful
connect. Crashes (modelled `none`) and I/O errors end the task with the
connection dropped. -/
inductive Step : ConnState → ConnState → Prop where
  | negoProceed (s : ConnState) (proxy : Proxy) (buf : List Nat) (out : NegoOutcome) :
      s.stage = Stage.nego → handleNegotiation proxy buf = some out →
      out.proceed = true →
      Step s ⟨Stage.auth, out.selected, s.authSucceeded, s.requestParsed, s.upstream⟩
  | negoStop (s : ConnState) (proxy : Proxy) (buf : List Nat) (out : NegoOutcome) :
      s.stage = Stage.nego → handleNegotiation proxy buf = some out →
      out.proceed = false →
      Step s ⟨Stage.closed, out.selected, s.authSucceeded, s.requestParsed, s.upstream⟩
  | negoCrash (s : ConnState) (proxy : Proxy) (buf : List Nat) :
      s.stage = Stage.nego → handleNegotiation proxy buf = none →
      Step s ⟨Stage.closed, s.negotiated, s.authSucceeded, s.requestParsed, s.upstream⟩
  | authOk (s : ConnState) (proxy : Proxy) (u p : String) :
      s.stage = Stage.auth → (authenticate proxy u p).proceed = true →
      Step s ⟨Stage.request, s.negotiated, true, s.requestParsed, s.upstream⟩
  | authFail (s : ConnState) (proxy : Proxy) (u p : String) :
      s.stage = Stage.auth → (authenticate proxy u p).proceed = false →
      Step s ⟨Stage.closed, s.negotiated, s.authSucceeded, s.requestParsed, s.upstream⟩
  | authCrash (s : ConnState) (buf : List Nat) :
      s.stage = Stage.auth → decodeAuthFields buf = none →
      Step s ⟨Stage.closed, s.negotiated, s.authSucceeded, s.requestParsed, s.upstream⟩
  | requestOk (s : ConnState) (r0 r1 r2 r3 a0 a1 a2 a3 p0 p1 : Nat) (addr : List Nat) :
      s.stage = Stage.request →
      parseRequest r0 r1 r2 r3 a0 a1 a2 a3 p0 p1 = some addr →
      Step s ⟨Stage.connecting, s.negotiated, s.authSucceeded, true, s.upstream⟩
  | requestReject (s : ConnState) (r0 r1 r2 r3 a0 a1 a2 a3 p0 p1 : Nat) :
      s.stage = Stage.request →
      parseRequest r0 r1 r2 r3 a0 a1 a2 a3 p0 p1 = none →
      Step s ⟨Stage.closed, s.negotiated, s.authSucceeded, s.requestParsed, s.upstream⟩
  | connectSuccess (s : ConnState) :
      s.stage = Stage.connecting →
      Step s ⟨Stage.relay, s.negotiated, s.authSucceeded, s.requestParsed, true⟩
  | connectCrash (s : ConnState) :
      s.stage = Stage.connecting →
      Step s ⟨Stage.closed, s.negotiated, s.authSucceeded, s.requestParsed, s.upstream⟩
  | relayDone (s : ConnState) :
      s.stage = Stage.relay →
      Step s ⟨Stage.closed, s.negotiated, s.authSucceeded, s.requestParsed, s.upstream⟩
  | ioFail (s : ConnState) :
      Step s ⟨Stage.closed, s.negotiated, s.authSucceeded, s.requestParsed, s.upstream⟩

/-- States a connection task can actually be in. -/
inductive Reachable : ConnState → Prop where
  | init : Reachable initState
  | step {s t : ConnState} : Reachable s → Step s t → Reachable t

/-- Auxiliary strengthened invariant for the pipeline. -/
def goodState (s : ConnState) : Prop :=
  (s.upstream = true → s.requestParsed = true) ∧
  ((s.stage = Stage.connecting ∨ s.stage = Stage.relay) → s.requestParsed = true) ∧
  ((s.stage = Stage.request ∨ s.stage = Stage.connecting ∨ s.stage = Stage.relay) →
    s.authSucceeded = true)

theorem reachable_goodState (s : ConnState) (h : Reachable s) : goodState s := by
  induction h with
  | init => simp [goodState, initState]
  | step h1 h2 ih =>
    cases h2 with
    | negoProceed proxy buf out hs hh hp =>
      exact ⟨ih.1, by intro h; rcases h with h | h <;> simp at h,
        by intro h; rcases h with h | h | h <;> simp at h⟩
    | negoStop proxy buf out hs hh hp =>
      exact ⟨ih.1, by intro h; rcases h with h | h <;> simp at h,
        by intro h; rcases h with h | h | h <;> simp at h⟩
    | negoCrash proxy buf hs hh =>
      exact ⟨ih.1, by intro h; rcases h with h | h <;> simp at h,
        by intro h; rcases h with h | h | h <;> simp at h⟩
    | authOk proxy u p hs hp =>
      exact ⟨ih.1, by intro h; rcases h with h | h <;> simp at h,
        fun _ => rfl⟩
    | authFail proxy u p hs hp =>
      exact ⟨ih.1, by intro h; rcases h with h | h <;> simp at h,
        by intro h; rcases h with h | h | h <;> simp at h⟩
    | authCrash buf hs hh =>
      exact ⟨ih.1, by intro h; rcases h with h | h <;> simp at h,
        by intro h; rcases h with h | h | h <;> simp at h⟩
    | requestOk r0 r1 r2 r3 a0 a1 a2 a3 p0 p1 addr hs hp =>
      exact ⟨fun _ => rfl, fun _ => rfl, fun _ => ih.2.2 (Or.inl hs)⟩
    | requestReject r0 r1 r2 r3 a0 a1 a2 a3 p0 p1 hs hp =>
      exact ⟨ih.1, by intro h; rcases h with h | h <;> simp at h,
        by intro h; rcases h with h | h | h <;> simp at h⟩
    | connectSuccess hs =>
      exact ⟨fun _ => ih.2.1 (Or.inl hs), fun _ => ih.2.1 (Or.inl hs),
        fun _ => ih.2.2 (Or.inr (Or.inl hs))⟩
    | connectCrash hs =>
      exact ⟨ih.1, by intro h; rcases h with h | h <;> simp at h,
        by intro h; rcases h with h | h | h <;> simp at h⟩
    | relayDone hs =>
      exact ⟨ih.1, by intro h; rcases h with h | h <;> simp at h,
        by intro h; rcases h with h | h | h <;> simp at h⟩
    | ioFail =>
      exact ⟨ih.1, by intro h; rcases h with h | h <;> simp at h,
        by intro h; rcases h with h | h | h <;> simp at h⟩

/-- Claim C10 (confirmed): in every reachable state of a connection's
pipeline, an upstream socket exists only after request parsing has
succeeded, and request parsing is in progress only when the credential
check succeeded (in this source NoAuth never reaches request parsing, so
the disjunct holds a fortiori). -/
theorem upstream_only_after_parse (s : ConnState) (h : Reachable s) :
    (s.upstream = true → s.requestParsed = true) ∧
    (s.stage = Stage.request →
      (s.authSucceeded = true ∨ s.negotiated = some AuthMethods.NoAuth)) := by
  have hg := reachable_goodState s h
  exact ⟨hg.1, fun hs => Or.inl (hg.2.2 (Or.inl hs))⟩

/-- Witness for C10 at a concrete reachable relay state: negotiation with a
client offering method 2 and UsernamePassword enabled, successful
authentication of alice, a parsed IPv4 CONNECT to 93.184.216.34:80 and a
successful upstream connect. -/
theorem upstream_only_after_parse_witness :
    ((ConnState.mk Stage.relay (some AuthMethods.UsernamePassword) true true
        true).upstream = true →
      (ConnState.mk Stage.relay (some AuthMethods.UsernamePassword) true true
        true).requestParsed = true) ∧
    ((ConnState.mk Stage.relay (some AuthMethods.UsernamePassword) true true
        true).stage = Stage.request →
      ((ConnState.mk Stage.relay (some AuthMethods.UsernamePassword) true true
          true).authSucceeded = true ∨
        (ConnState.mk Stage.relay (some AuthMethods.UsernamePassword) true true
          true).negotiated = some AuthMethods.NoAuth)) := by
  apply upstream_only_after_parse
  have h1 : Reachable ⟨Stage.auth, some AuthMethods.UsernamePassword, false,
      false, false⟩ :=
    Reachable.step Reachable.init
      (Step.negoProceed initState
        ⟨[AuthMethods.UsernamePassword], [("alice", "secret")]⟩
        (5 :: 1 :: 2 :: List.replicate 255 0)
        ⟨[5, 2], some AuthMethods.UsernamePassword, true⟩ rfl (by decide) rfl)
  have h2 : Reachable ⟨Stage.request, some AuthMethods.UsernamePassword, true,
      false, false⟩ :=
    Reachable.step h1
      (Step.authOk _ ⟨[AuthMethods.UsernamePassword], [("alice", "secret")]⟩
        "alice" "secret" rfl (by decide))
  have h3 : Reachable ⟨Stage.connecting, some AuthMethods.UsernamePassword, true,
      true, false⟩ :=
    Reachable.step h2
      (Step.requestOk _ 5 1 0 1 93 184 216 34 0 80 [93, 184, 216, 34, 0, 80]
        rfl (by decide))
  exact Reachable.step h3 (Step.connectSuccess _ rfl)

end Socks5
